import Mathlib

/-!
Verification development for the `caseclosed` browser client
(`static/script.js`): a shallow embedding of the chat/clarification
protocol engine, the draft document structurer, the jsPDF paginator and
the panel renderers, together with theorems settling the specification
claims about them.

Conventions of the embedding:
* JavaScript strings are Lean `String`s; `jsTrim` models `trim()`.
* Fields that JavaScript leaves `undefined` are `Option`s; JavaScript
  truthiness of strings (empty string is falsy) is modelled explicitly.
* DOM effects are modelled as the HTML strings assigned to `innerHTML`
  and as lists of emitted chat messages; jsPDF effects are modelled as
  lists of render events carrying the cursor position at render time.
* Vertical cursor positions use `ℚ` because `lineHeight / 2 = 3.5`.
-/

/-- List-level test that `pre` is an initial segment of `l`. -/
def listBeg : List Char → List Char → Bool
  | [], _ => true
  | _ :: _, [] => false
  | a :: as, b :: bs => a = b && listBeg as bs

/-- List-level substring occurrence test. -/
def listHas (needle : List Char) : List Char → Bool
  | [] => needle.isEmpty
  | b :: bs => listBeg needle (b :: bs) || listHas needle bs

/-- Substring occurrence test on strings. -/
def strContains (hay needle : String) : Bool :=
  listHas needle.data hay.data

/-- Test modelling JavaScript `hay.startsWith(pre)`. -/
def strStarts (s pre : String) : Bool :=
  listBeg pre.data s.data

/-- Test modelling JavaScript `hay.endsWith(suf)`. -/
def strEnds (s suf : String) : Bool :=
  listBeg suf.data.reverse s.data.reverse

/-- Number of occurrences of the character `c` in the string `s`. -/
def countChar (c : Char) (s : String) : Nat :=
  s.data.count c

/-- First `n` characters of `s`, modelling JavaScript `s.substring(0, n)`. -/
def strTake (s : String) (n : Nat) : String :=
  ⟨s.data.take n⟩

/-- JavaScript `trim()`: strip leading and trailing whitespace (defined
on the character list so that it evaluates by kernel reduction). -/
def jsTrim (s : String) : String :=
  ⟨((s.data.dropWhile Char.isWhitespace).reverse.dropWhile Char.isWhitespace).reverse⟩

/-- JavaScript `text.split(newline)` (defined on the character list so
that it evaluates by kernel reduction); the empty string yields one empty
segment, as in JavaScript. -/
def splitNlGo (acc : List Char) : List Char → List String
  | [] => [⟨acc.reverse⟩]
  | c :: rest => if c = '\n' then ⟨acc.reverse⟩ :: splitNlGo [] rest else splitNlGo (c :: acc) rest

/-- String form of the newline split. -/
def jsSplitNl (s : String) : List String :=
  splitNlGo [] s.data

/-- JavaScript `a || b` on an optional string: the default is used when the
field is absent or the empty string (both falsy). -/
def jsOr (o : Option String) (d : String) : String :=
  match o with
  | none => d
  | some s => if s = "" then d else s

/-- JavaScript truthiness of an optional string field. -/
def truthyStr (o : Option String) : Bool :=
  match o with
  | none => false
  | some s => !(s = "")

/-- Serialization of one text character by the DOM (`div.textContent = s;
div.innerHTML`), the mechanism behind `escapeHtml`. -/
def escapeChar (c : Char) : List Char :=
  if c = '&' then ("&amp;").data
  else if c = '<' then ("&lt;").data
  else if c = '>' then ("&gt;").data
  else [c]

/-- The `escapeHtml` helper of `script.js`: text-node serialization of the
string, escaping the markup-significant characters. -/
def escapeHtml (s : String) : String :=
  ⟨s.data.flatMap escapeChar⟩

/-- Heading test of `script.js`: `trimmed.startsWith('**') &&
trimmed.endsWith('**')`, applied by both `displayDraft` and
`handleDraftDownload`. -/
def isHeadingLine (t : String) : Bool :=
  strStarts t ("**") && strEnds t ("**")

/-- The global regex replacement on the trimmed heading line that deletes
every bold-marker pair, non-overlapping, left to right. -/
def stripBoldGo : List Char → List Char
  | '*' :: '*' :: rest => stripBoldGo rest
  | c :: rest => c :: stripBoldGo rest
  | [] => []

/-- String form of `stripBoldGo`. -/
def stripBoldAll (s : String) : String :=
  ⟨stripBoldGo s.data⟩

/-- Unordered list item test, modelling the regex match on `[-*]` followed
by whitespace at the start of the trimmed line. -/
def isUnorderedItem (t : String) : Bool :=
  match t.data with
  | c :: d :: _ => (c = '-' || c = '*') && d.isWhitespace
  | _ => false

/-- Strip the unordered marker and the following whitespace run. -/
def stripUnordered (t : String) : String :=
  match t.data with
  | _ :: rest => ⟨rest.dropWhile Char.isWhitespace⟩
  | [] => t

/-- Ordered list item test: digits, a dot, then whitespace. -/
def isOrderedItem (t : String) : Bool :=
  !(t.data.takeWhile Char.isDigit).isEmpty &&
    match t.data.dropWhile Char.isDigit with
    | '.' :: d :: _ => d.isWhitespace
    | _ => false

/-- Strip the ordered marker (digits and dot) and following whitespace. -/
def stripOrdered (t : String) : String :=
  match t.data.dropWhile Char.isDigit with
  | '.' :: rest => ⟨rest.dropWhile Char.isWhitespace⟩
  | _ => t

/-- Earliest adjacent pair of bold-marker characters in the list: returns
the part before the pair and the part after it. -/
def findPair : List Char → Option (List Char × List Char)
  | '*' :: '*' :: rest => some ([], rest)
  | c :: rest => (findPair rest).map (fun p => (c :: p.1, p.2))
  | [] => none

/-- Earliest adjacent marker pair at index at least one (the non-greedy
group of the bold regex needs at least one character before the closer). -/
def findCloserFrom : List Char → Option (List Char × List Char)
  | [] => none
  | c :: rest => (findPair rest).map (fun p => (c :: p.1, p.2))

/-- Scanner for the global regex replacement turning a double-marker span
into strong emphasis, as applied to paragraph lines by `displayDraft`.
The fuel argument bounds the scan; it is instantiated with the input
length, which every step strictly decreases. -/
def boldSubGo : Nat → List Char → List Char
  | _, [] => []
  | 0, l => l
  | fuel + 1, '*' :: '*' :: rest =>
    match findCloserFrom rest with
    | some (mid, tail) =>
      ("<strong>").data ++ mid ++ ("</strong>").data ++ boldSubGo fuel tail
    | none => '*' :: boldSubGo fuel ('*' :: rest)
  | fuel + 1, c :: rest => c :: boldSubGo fuel rest

/-- String form of the strong-emphasis substitution. -/
def boldSub (s : String) : String :=
  ⟨boldSubGo (s.data.length + 1) s.data⟩

/-- Split at the first bold-marker character: the first component contains
no marker, the second starts with one when nonempty. -/
def takeNonStar : List Char → List Char × List Char
  | [] => ([], [])
  | '*' :: rest => ([], '*' :: rest)
  | c :: rest =>
    let p := takeNonStar rest
    (c :: p.1, p.2)

/-- Scanner for the single-marker emphasis regex of `displayDraft` (a
marker not preceded by a marker, a nonempty run of non-marker characters,
then a marker not followed by a marker). The boolean argument records
whether the previous character was a marker (the lookbehind). -/
def italicSubGo : Nat → Bool → List Char → List Char
  | _, _, [] => []
  | 0, _, l => l
  | fuel + 1, prevStar, '*' :: rest =>
    if prevStar then '*' :: italicSubGo fuel true rest
    else
      match takeNonStar rest with
      | (mid, '*' :: tail) =>
        if mid.isEmpty then '*' :: italicSubGo fuel true rest
        else
          match tail with
          | '*' :: _ => '*' :: italicSubGo fuel true rest
          | _ => ("<em>").data ++ mid ++ ("</em>").data ++ italicSubGo fuel true tail
      | (_, _) => '*' :: italicSubGo fuel true rest
  | fuel + 1, _, c :: rest => c :: italicSubGo fuel (c = '*') rest

/-- String form of the emphasis substitution. -/
def italicSub (s : String) : String :=
  ⟨italicSubGo (s.data.length + 1) false s.data⟩

/-- A case-law search result as consumed by `updateCasesPanel`.
`relevance_score` is `none` when the backend omitted the field. -/
structure CaseResult where
  title : Option String
  citation : Option String
  relevance_score : Option Nat
  relevance_reason : Option String
  snippet : Option String
  pdf_link : Option String
deriving DecidableEq

/-- JavaScript `c.relevance_score || 0`: both an absent and a zero score
display as `0`. -/
def scoreOr (o : Option Nat) : Nat :=
  o.getD 0

/-- The HTML block `updateCasesPanel` builds for one case (the template
literal's inter-element indentation whitespace is elided as purely
presentational; tags, classes, attributes and inserted data are kept). -/
def caseItemHtml (c : CaseResult) : String :=
  ("<div class=\"case-item\">") ++
  (("<div class=\"case-title\">") ++ escapeHtml (jsOr c.title ("Untitled")) ++ ("</div>")) ++
  (if truthyStr c.citation then
    ("<div class=\"case-citation\">") ++ escapeHtml (c.citation.getD ("")) ++ ("</div>")
   else ("")) ++
  (("<div class=\"case-relevance\"><span class=\"relevance-score\">") ++
    (("Relevance: ") ++ toString (scoreOr c.relevance_score) ++ ("%")) ++
    ("</span></div>")) ++
  (if truthyStr c.relevance_reason then
    ("<div class=\"relevance-reason\">") ++ escapeHtml (c.relevance_reason.getD ("")) ++ ("</div>")
   else ("")) ++
  (if truthyStr c.snippet then
    ("<div class=\"case-snippet\">") ++
      (escapeHtml (strTake (c.snippet.getD ("")) 200) ++ ("...")) ++ ("</div>")
   else ("")) ++
  (if truthyStr c.pdf_link then
    (("<a href=\"") ++ c.pdf_link.getD ("")) ++
      ("\" target=\"_blank\" class=\"case-link\">View Case →</a>")
   else ("")) ++
  ("</div>")

/-- The `cases-content` panel HTML produced by `updateCasesPanel`: an
empty-state paragraph for a missing or empty list, otherwise one block per
case in input order. -/
def updateCasesPanelHtml (cases : List CaseResult) : String :=
  if cases.isEmpty then
    ("<p class=\"empty-state\">No case law results yet. Start a search to see relevant cases.</p>")
  else
    String.join (cases.map caseItemHtml)

/-- A party entry of an analysis. The JavaScript also tolerates a bare
string in place of the object; that dynamic-typing artifact (rendering as
the string itself) is not exercised by any claim and is not modelled. -/
structure Party where
  name : Option String
  role : Option String
  details : Option String
deriving DecidableEq

/-- A penal-code entry of an analysis (same object form as `Party`). -/
structure PenalCode where
  code : Option String
  description : Option String
  relevance : Option String
deriving DecidableEq

/-- The analysis object: every collection may be absent. -/
structure Analysis where
  facts : Option (List String)
  parties : Option (List Party)
  jurisdictions : Option (List String)
  legal_issues : Option (List String)
  causes_of_action : Option (List String)
  penal_codes : Option (List PenalCode)
deriving DecidableEq

/-- JavaScript truthiness plus non-emptiness of an optional list field, the
guard `a.f && a.f.length > 0` used on every analysis section. -/
def presentList {α : Type} (o : Option (List α)) : Bool :=
  match o with
  | none => false
  | some l => !l.isEmpty

/-- `Object.keys(analysis).length === 0`: all fields absent. -/
def keysEmpty (a : Analysis) : Bool :=
  a.facts.isNone && a.parties.isNone && a.jurisdictions.isNone &&
    a.legal_issues.isNone && a.causes_of_action.isNone && a.penal_codes.isNone

/-- One list-item line of a plain string section. -/
def liPlain (s : String) : String :=
  ("<li>") ++ escapeHtml s ++ ("</li>")

/-- One list-item line of the legal-issues and causes sections. -/
def liSpaced (s : String) : String :=
  ("<li style=\"margin-bottom: 10px;\">") ++ escapeHtml s ++ ("</li>")

/-- The party block of `updateAnalysisPanel`; a falsy `name` field falls
back to the object's string coercion as in the source. -/
def partyHtml (p : Party) : String :=
  let name := jsOr p.name ("[object Object]")
  let role := jsOr p.role ("Unknown")
  let details := jsOr p.details ("")
  ("<div class=\"party-item\">") ++
  (("<div><strong>") ++ escapeHtml name ++ ("</strong> <span style=\"color: #8b7d6b;\">(") ++
    escapeHtml role ++ (")</span></div>")) ++
  (if !(details = "") then
    ("<div style=\"font-size: 12px; color: #6b5d4f; margin-top: 4px;\">") ++
      escapeHtml details ++ ("</div>")
   else ("")) ++
  ("</div>")

/-- The penal-code block of `updateAnalysisPanel`. -/
def penalCodeHtml (pc : PenalCode) : String :=
  let codeText := jsOr pc.code ("[object Object]")
  let description := jsOr pc.description ("")
  let relevance := jsOr pc.relevance ("")
  ("<div style=\"margin-bottom: 16px; padding: 12px; background-color: #fafafa; border-left: 3px solid #7f5539; border-radius: 4px;\">") ++
  (("<div style=\"font-weight: 600; color: #5c4033; margin-bottom: 6px;\">") ++
    escapeHtml codeText ++ ("</div>")) ++
  (if !(description = "") then
    ("<div style=\"font-size: 13px; color: #3e2f24; margin-bottom: 6px;\">") ++
      escapeHtml description ++ ("</div>")
   else ("")) ++
  (if !(relevance = "") then
    ("<div style=\"font-size: 12px; color: #6b5d4f; font-style: italic;\">Relevance: ") ++
      escapeHtml relevance ++ ("</div>")
   else ("")) ++
  ("</div>")

/-- The section HTML accumulated by `updateAnalysisPanel` before the
empty-state fallbacks. -/
def analysisSectionsHtml (a : Analysis) : String :=
  (if presentList a.facts then
    ("<div class=\"analysis-section\"><h4>Facts</h4><ul>") ++
      String.join ((a.facts.getD []).map liPlain) ++ ("</ul></div>")
   else ("")) ++
  (if presentList a.parties then
    ("<div class=\"analysis-section\"><h4>Parties</h4>") ++
      String.join ((a.parties.getD []).map partyHtml) ++ ("</div>")
   else ("")) ++
  (if presentList a.jurisdictions then
    ("<div class=\"analysis-section\"><h4>Jurisdictions</h4><ul>") ++
      String.join ((a.jurisdictions.getD []).map liPlain) ++ ("</ul></div>")
   else ("")) ++
  (if presentList a.legal_issues then
    ("<div class=\"analysis-section\"><h4>Legal Issues</h4><ul>") ++
      String.join ((a.legal_issues.getD []).map liSpaced) ++ ("</ul></div>")
   else ("")) ++
  (if presentList a.causes_of_action then
    ("<div class=\"analysis-section\"><h4>Causes of Action</h4><ul>") ++
      String.join ((a.causes_of_action.getD []).map liSpaced) ++ ("</ul></div>")
   else ("")) ++
  (if presentList a.penal_codes then
    ("<div class=\"analysis-section\"><h4>Penal Codes</h4>") ++
      String.join ((a.penal_codes.getD []).map penalCodeHtml) ++ ("</div>")
   else (""))

/-- The `analysis-content` panel HTML produced by `updateAnalysisPanel`. -/
def updateAnalysisPanelHtml (a : Option Analysis) : String :=
  match a with
  | none =>
    ("<p class=\"empty-state\">No analysis available yet. Upload a PDF or describe your case to begin.</p>")
  | some an =>
    if keysEmpty an then
      ("<p class=\"empty-state\">No analysis available yet. Upload a PDF or describe your case to begin.</p>")
    else
      let html := analysisSectionsHtml an
      if html = "" then ("<p class=\"empty-state\">Analysis in progress...</p>") else html

/-- Accumulator of `displayDraft`: the HTML built so far, the open
paragraph buffer, and the open list kind (the tag name). -/
structure DraftAcc where
  html : String
  para : List String
  listType : Option String
deriving DecidableEq

/-- Close the open paragraph, emitting its lines joined with one space. -/
def flushPara (a : DraftAcc) : DraftAcc :=
  if a.para.isEmpty then a
  else { a with html := a.html ++ (("<p>") ++ String.intercalate (" ") a.para ++ ("</p>")), para := [] }

/-- Close the open list, emitting its closing tag. -/
def closeList (a : DraftAcc) : DraftAcc :=
  match a.listType with
  | some lt => { a with html := a.html ++ (("</") ++ lt ++ (">")), listType := none }
  | none => a

/-- One line of the `displayDraft` scan, following the source's branch
order: heading, unordered item, ordered item, blank line, body text. -/
def stepDraftLine (a : DraftAcc) (line : String) : DraftAcc :=
  let trimmed := jsTrim line
  if isHeadingLine trimmed then
    let a := closeList (flushPara a)
    let title := jsTrim (stripBoldAll trimmed)
    { a with html := a.html ++ (("<h3>") ++ escapeHtml title ++ ("</h3>")) }
  else if isUnorderedItem trimmed then
    let a := flushPara a
    let a :=
      if !(a.listType = some ("ul")) then
        let a := closeList a
        { a with html := a.html ++ ("<ul>"), listType := some ("ul") }
      else a
    { a with html := a.html ++ (("<li>") ++ escapeHtml (stripUnordered trimmed) ++ ("</li>")) }
  else if isOrderedItem trimmed then
    let a := flushPara a
    let a :=
      if !(a.listType = some ("ol")) then
        let a := closeList a
        { a with html := a.html ++ ("<ol>"), listType := some ("ol") }
      else a
    { a with html := a.html ++ (("<li>") ++ escapeHtml (stripOrdered trimmed) ++ ("</li>")) }
  else if trimmed = "" then
    closeList (flushPara a)
  else
    let a := closeList a
    { a with para := a.para ++ [italicSub (boldSub trimmed)] }

/-- The `draft-content` panel HTML produced by `displayDraft`. -/
def displayDraftHtml (docText : String) : String :=
  let acc := (jsSplitNl docText).foldl stepDraftLine { html := "", para := [], listType := none }
  let acc := closeList (flushPara acc)
  ("<div class=\"draft-document\">") ++ acc.html ++ ("</div>")

/-- The mutable client globals owned by the protocol engine, together with
the rendered panel contents. -/
structure ClientState where
  clarifyMode : Bool
  clarificationAnswers : List String
  clarifyAttempts : Nat
  contextId : Option String
  currentAnalysis : Option Analysis
  currentCases : List CaseResult
  analysisHtml : String
  casesHtml : String
deriving DecidableEq

/-- Client state at script load. -/
def initialClient : ClientState where
  clarifyMode := false
  clarificationAnswers := []
  clarifyAttempts := 0
  contextId := none
  currentAnalysis := none
  currentCases := []
  analysisHtml := ""
  casesHtml := ""

/-- Body of the chat request built by `handleChatSubmit`. -/
structure ChatRequest where
  message : String
  clarify_attempts : Nat
  context_id : Option String
deriving DecidableEq

/-- Request phase of `handleChatSubmit`: trim the input; an empty result is
a local no-op (`none`), otherwise exactly one request is issued. -/
def chatRequestOf (input : String) (st : ClientState) : Option ChatRequest :=
  let message := jsTrim input
  if message = "" then none
  else some { message := message, clarify_attempts := st.clarifyAttempts, context_id := st.contextId }

/-- A parsed `/chat` response body. `status` is kept as the raw
discriminator string the code compares against. -/
structure ChatResponse where
  status : String
  questions : List String
  clarify_attempts : Nat
  context_id : Option String
  analysis : Option Analysis
  cases : Option (List CaseResult)
  message : String
deriving DecidableEq

/-- The clarification-questions chat bubble, 1-indexed in display order. -/
def questionsMessage (qs : List String) : String :=
  ("<b>I need a bit more information:</b><br><br>") ++
    String.join (qs.enum.map (fun p => toString (p.1 + 1) ++ (". ") ++ p.2 ++ ("<br>"))) ++
    ("<br>Please provide answers to these questions in your next message.")

/-- Refresh of the analysis state and panel shared by the clarifying and
results branches (`if (data.analysis) { ... }`). -/
def refreshAnalysis (st : ClientState) (a : Option Analysis) : ClientState :=
  match a with
  | some an => { st with currentAnalysis := some an, analysisHtml := updateAnalysisPanelHtml (some an) }
  | none => st

/-- Response phase of `handleChatSubmit`: dispatch on the `status`
discriminator, returning the new state and the bot messages appended, in
order. An unknown status leaves the state untouched and says nothing. -/
def applyChat (st : ClientState) (d : ChatResponse) : ClientState × List String :=
  if d.status = "clarifying" then
    let st1 := { st with clarifyMode := true, clarifyAttempts := d.clarify_attempts,
                         contextId := d.context_id, clarificationAnswers := [] }
    (refreshAnalysis st1 d.analysis, [questionsMessage d.questions])
  else if d.status = "results" then
    let st1 := { st with clarifyMode := false, clarifyAttempts := 0,
                         clarificationAnswers := [], contextId := d.context_id }
    let st2 := refreshAnalysis st1 d.analysis
    let cs := d.cases.getD []
    if cs.isEmpty then
      (st2, [("No relevant cases found."),
             ("You can add more information to refine the search or generate a document.")])
    else
      ({ st2 with currentCases := cs, casesHtml := updateCasesPanelHtml cs },
       [("Found ") ++ toString cs.length ++ (" relevant cases. Check the Cases panel."),
        ("You can add more information to refine the search or generate a document.")])
  else if d.status = "error" then
    (st, [d.message])
  else
    (st, [])

/-- A parsed `/upload` response body. -/
structure UploadResponse where
  error : Option String
  filename : String
  text : String
  context_id : Option String
  analysis : Option Analysis
deriving DecidableEq

/-- State effect of the `handlePDFUpload` success path: adopt the returned
context id and refresh the analysis when present; an error response leaves
the state untouched. -/
def applyUpload (st : ClientState) (d : UploadResponse) : ClientState :=
  if truthyStr d.error then st
  else refreshAnalysis { st with contextId := d.context_id } d.analysis

/-- A parsed `/analyze` response body. -/
structure AnalyzeResponse where
  error : Option String
  analysis : Option Analysis
deriving DecidableEq

/-- State effect of `handleAnalyze` on a response: only the analysis state
and panel are refreshed, and only on a non-error response carrying one. -/
def applyAnalyze (st : ClientState) (d : AnalyzeResponse) : ClientState :=
  if truthyStr d.error then st
  else refreshAnalysis st d.analysis

/-- One instruction issued to the page geometry by `handleDraftDownload`,
recording the page number and cursor position at which text is placed. -/
inductive RenderEv where
  | heading (page : Nat) (y : ℚ) (text : String)
  | body (page : Nat) (y : ℚ) (text : String)
deriving DecidableEq

/-- Paginator cursor: current page and vertical position. -/
structure PagState where
  page : Nat
  y : ℚ
deriving DecidableEq

/-- Render the wrapped visual lines of one paragraph line: each is guarded
by the body threshold before rendering and advances the cursor by the line
height (`margin = 20` and `lineHeight = 7` are the source's literals). -/
def bodyLines (h : ℚ) (s : PagState) : List String → PagState × List RenderEv
  | [] => (s, [])
  | l :: ls =>
    let s1 := if s.y > h - 20 then { page := s.page + 1, y := (20 : ℚ) } else s
    let rest := bodyLines h { page := s1.page, y := s1.y + 7 } ls
    (rest.1, RenderEv.body s1.page s1.y l :: rest.2)

/-- One input line of the `handleDraftDownload` paginator: a heading line
reserves `height - 30`, a blank line advances by half a line height, and
any other line is wrapped by `split` (the text-measurement primitive
`doc.splitTextToSize`) and rendered via `bodyLines` after a pre-check. -/
def stepPagLine (h : ℚ) (split : String → List String) (s : PagState) (line : String) :
    PagState × List RenderEv :=
  let trimmed := jsTrim line
  if isHeadingLine trimmed then
    let title := jsTrim (stripBoldAll trimmed)
    let s1 := if s.y > h - 30 then { page := s.page + 1, y := (20 : ℚ) } else s
    ({ page := s1.page, y := s1.y + 7 + 3 }, [RenderEv.heading s1.page s1.y title])
  else if trimmed = "" then
    ({ page := s.page, y := s.y + 7 / 2 }, [])
  else
    let s1 := if s.y > h - 20 then { page := s.page + 1, y := (20 : ℚ) } else s
    bodyLines h s1 (split trimmed)

/-- Fold of the paginator over the draft's lines. -/
def paginateLines (h : ℚ) (split : String → List String) :
    List String → PagState → PagState × List RenderEv
  | [], s => (s, [])
  | l :: ls, s =>
    let r1 := stepPagLine h split s l
    let r2 := paginateLines h split ls r1.1
    (r2.1, r1.2 ++ r2.2)

/-- Observable effects of the draft-download handler. The constructors for
a network request and a user-visible message exist so that their absence
from the handler's output is expressible; the source handler never emits
them. -/
inductive DlAction where
  | fetchReq (url : String) (body : String)
  | saveFile (filename : String) (events : List RenderEv)
  | showMessage (text : String)
deriving DecidableEq

/-- Test for the network-request action. -/
def isFetchAction : DlAction → Bool
  | DlAction.fetchReq _ _ => true
  | _ => false

/-- Test for the user-message action. -/
def isMessageAction : DlAction → Bool
  | DlAction.showMessage _ => true
  | _ => false

/-- The `handleDraftDownload` handler: a falsy stored draft text is a
silent no-op; otherwise the draft is paginated locally from `y = margin`
on page one and saved under `legal-<docType>-<timestamp>.pdf`. No request
is issued and no response is consumed. -/
def handleDraftDownload (h : ℚ) (split : String → List String) (now : Nat)
    (draftText docType : String) : List DlAction :=
  if draftText = "" then []
  else
    let r := paginateLines h split (jsSplitNl draftText) { page := 1, y := 20 }
    [DlAction.saveFile (("legal-") ++ docType ++ ("-") ++ toString now ++ (".pdf")) r.2]

/-- Interior of a trimmed line between the leading and trailing marker
pairs. -/
def strInterior (t : String) : String :=
  ⟨(t.data.drop 2).take (t.data.length - 4)⟩

/-- Modelled from the claim wording, for comparison with the source's
`isHeadingLine`: starts and ends with a bold-marker pair and contains no
other bold markers inside. -/
def claimedHeadingCond (t : String) : Bool :=
  strStarts t ("**") && strEnds t ("**") && !(strContains (strInterior t) ("**"))

/-- The pagination bound a render event must satisfy: body text renders at
`y ≤ height - 20`, headings at `y ≤ height - 30`. -/
def evOk (h : ℚ) : RenderEv → Bool
  | RenderEv.heading _ y _ => decide (y ≤ h - 30)
  | RenderEv.body _ y _ => decide (y ≤ h - 20)

/-- Identity wrap: each paragraph line fits the page width as one visual
line. -/
def splitSelf : String → List String := fun t => [t]

/-- A fully populated case result used as concrete input. -/
def sampleCase : CaseResult where
  title := some ("Doe v. Roe")
  citation := some ("123 F.3d 456")
  relevance_score := some 85
  relevance_reason := some ("On point")
  snippet := some ("snip")
  pdf_link := some ("http://x")

/-- The same case with a score on the other side of every claimed tier
boundary. -/
def sampleCaseLow : CaseResult :=
  { sampleCase with relevance_score := some 12 }

/-- A client state in which a previous search's case is displayed. -/
def staleState : ClientState :=
  { initialClient with
      currentCases := [sampleCase],
      casesHtml := updateCasesPanelHtml [sampleCase] }

/-- A results response whose cases list is empty. -/
def emptyResultsResp : ChatResponse where
  status := ("results")
  questions := []
  clarify_attempts := 0
  context_id := some ("abc123")
  analysis := none
  cases := some []
  message := ("")

/-- A results response carrying one case. -/
def foundResultsResp : ChatResponse where
  status := ("results")
  questions := []
  clarify_attempts := 0
  context_id := some ("abc123")
  analysis := none
  cases := some [sampleCase]
  message := ("")

/-- A clarifying response whose server-supplied attempt counter is zero. -/
def zeroClarifyResp : ChatResponse where
  status := ("clarifying")
  questions := [("Which state?")]
  clarify_attempts := 0
  context_id := some ("abc123")
  analysis := none
  cases := none
  message := ("")

/-- A clarifying response with a positive attempt counter, as produced by
the backend protocol. -/
def twoClarifyResp : ChatResponse where
  status := ("clarifying")
  questions := [("Which state?"), ("When did tenancy end?")]
  clarify_attempts := 2
  context_id := some ("abc123")
  analysis := none
  cases := none
  message := ("")

/-- An error response. -/
def errorResp : ChatResponse where
  status := ("error")
  questions := []
  clarify_attempts := 7
  context_id := some ("other")
  analysis := none
  cases := some [sampleCase]
  message := ("Agent failure")

theorem strEmpty_append (s : String) : ("" : String) ++ s = s := by
  cases s
  rfl

theorem countChar_append (c : Char) (a b : String) :
    countChar c (a ++ b) = countChar c a + countChar c b := by
  simp [countChar, String.data_append]

theorem escapeChar_count_lt (c : Char) : (escapeChar c).count '<' = 0 := by
  by_cases h1 : c = '&'
  · simp [escapeChar, h1]
  · by_cases h2 : c = '<'
    · simp [escapeChar, h1, h2]
    · by_cases h3 : c = '>'
      · simp [escapeChar, h1, h2, h3]
      · simp [escapeChar, h1, h2, h3, List.count_cons]

theorem escapeChar_count_gt (c : Char) : (escapeChar c).count '>' = 0 := by
  by_cases h1 : c = '&'
  · simp [escapeChar, h1]
  · by_cases h2 : c = '<'
    · simp [escapeChar, h1, h2]
    · by_cases h3 : c = '>'
      · simp [escapeChar, h1, h2, h3]
      · simp [escapeChar, h1, h2, h3, List.count_cons]

theorem flatMap_escape_count (d : Char) (hd : ∀ c, (escapeChar c).count d = 0) :
    ∀ l : List Char, (l.flatMap escapeChar).count d = 0 := by
  intro l
  induction l with
  | nil => rfl
  | cons c rest ih => simp [List.flatMap_cons, List.count_append, hd, ih]

theorem countChar_escapeHtml_lt (s : String) : countChar '<' (escapeHtml s) = 0 := by
  simpa [countChar, escapeHtml] using flatMap_escape_count '<' escapeChar_count_lt s.data

theorem countChar_escapeHtml_gt (s : String) : countChar '>' (escapeHtml s) = 0 := by
  simpa [countChar, escapeHtml] using flatMap_escape_count '>' escapeChar_count_gt s.data

theorem flushPara_para (a : DraftAcc) : (flushPara a).para = [] := by
  by_cases h : a.para.isEmpty
  · simp [flushPara, h, List.isEmpty_iff.mp h]
  · simp [flushPara, h]

theorem closeList_para (a : DraftAcc) : (closeList a).para = a.para := by
  cases h : a.listType <;> simp [closeList, h]

theorem closeList_listType (a : DraftAcc) : (closeList a).listType = none := by
  cases h : a.listType <;> simp [closeList, h]

theorem refreshAnalysis_clarifyMode (st : ClientState) (a : Option Analysis) :
    (refreshAnalysis st a).clarifyMode = st.clarifyMode := by
  cases a <;> simp [refreshAnalysis]

theorem refreshAnalysis_clarifyAttempts (st : ClientState) (a : Option Analysis) :
    (refreshAnalysis st a).clarifyAttempts = st.clarifyAttempts := by
  cases a <;> simp [refreshAnalysis]

theorem refreshAnalysis_answers (st : ClientState) (a : Option Analysis) :
    (refreshAnalysis st a).clarificationAnswers = st.clarificationAnswers := by
  cases a <;> simp [refreshAnalysis]

theorem refreshAnalysis_contextId (st : ClientState) (a : Option Analysis) :
    (refreshAnalysis st a).contextId = st.contextId := by
  cases a <;> simp [refreshAnalysis]

theorem refreshAnalysis_currentCases (st : ClientState) (a : Option Analysis) :
    (refreshAnalysis st a).currentCases = st.currentCases := by
  cases a <;> simp [refreshAnalysis]

theorem refreshAnalysis_casesHtml (st : ClientState) (a : Option Analysis) :
    (refreshAnalysis st a).casesHtml = st.casesHtml := by
  cases a <;> simp [refreshAnalysis]

theorem applyUpload_protocol_fields (st : ClientState) (u : UploadResponse) :
    (applyUpload st u).clarifyMode = st.clarifyMode
    ∧ (applyUpload st u).clarifyAttempts = st.clarifyAttempts
    ∧ (applyUpload st u).clarificationAnswers = st.clarificationAnswers := by
  by_cases h : truthyStr u.error
  · simp [applyUpload, h]
  · simp [applyUpload, h, refreshAnalysis_clarifyMode, refreshAnalysis_clarifyAttempts,
      refreshAnalysis_answers]

theorem applyAnalyze_protocol_fields (st : ClientState) (u : AnalyzeResponse) :
    (applyAnalyze st u).clarifyMode = st.clarifyMode
    ∧ (applyAnalyze st u).clarifyAttempts = st.clarifyAttempts
    ∧ (applyAnalyze st u).clarificationAnswers = st.clarificationAnswers := by
  by_cases h : truthyStr u.error
  · simp [applyAnalyze, h]
  · simp [applyAnalyze, h, refreshAnalysis_clarifyMode, refreshAnalysis_clarifyAttempts,
      refreshAnalysis_answers]

theorem bodyLines_ok (h : ℚ) (h50 : (50 : ℚ) ≤ h) :
    ∀ (ls : List String) (s : PagState), ((bodyLines h s ls).2.all (evOk h)) = true := by
  intro ls
  induction ls with
  | nil => intro s; rfl
  | cons l rest ih =>
    intro s
    by_cases hy : s.y > h - 20
    · simp only [bodyLines, if_pos hy, List.all_cons, ih, Bool.and_true, evOk]
      simp only [decide_eq_true_eq]
      linarith
    · simp only [bodyLines, if_neg hy, List.all_cons, ih, Bool.and_true, evOk]
      simp only [decide_eq_true_eq]
      linarith [not_lt.mp hy]

theorem stepPagLine_ok (h : ℚ) (split : String → List String) (h50 : (50 : ℚ) ≤ h) :
    ∀ (s : PagState) (line : String), ((stepPagLine h split s line).2.all (evOk h)) = true := by
  intro s line
  by_cases hh : isHeadingLine (jsTrim line)
  · by_cases hy : s.y > h - 30
    · simp only [stepPagLine, hh, if_pos, if_pos hy, List.all_cons, List.all_nil, Bool.and_true,
        evOk, decide_eq_true_eq]
      linarith
    · simp only [stepPagLine, hh, if_pos, if_neg hy, List.all_cons, List.all_nil, Bool.and_true,
        evOk, decide_eq_true_eq]
      linarith [not_lt.mp hy]
  · by_cases hb : jsTrim line = ""
    · have he : isHeadingLine ("") = false := rfl
      simp [stepPagLine, hh, hb, he]
    · simp only [stepPagLine, hh, hb, if_neg, if_false, Bool.false_eq_true, bodyLines_ok h h50]

theorem paginateLines_ok (h : ℚ) (split : String → List String) (h50 : (50 : ℚ) ≤ h) :
    ∀ (lines : List String) (s : PagState),
      ((paginateLines h split lines s).2.all (evOk h)) = true := by
  intro lines
  induction lines with
  | nil => intro s; rfl
  | cons l rest ih =>
    intro s
    simp only [paginateLines, List.all_append, ih, Bool.and_true,
      stepPagLine_ok h split h50]

/-- C6: during pagination no body line is rendered with cursor above
`height - 20` and no heading above `height - 30` (from any starting
cursor, in particular the initial `y = margin` used by the handler);
a blank line advances the cursor by half a line height, a heading by
`lineHeight + 3` after a conditional page break that resets `y` to the
margin, and each wrapped body line by `lineHeight` after the same guard. -/
theorem paginator_render_bounds (h : ℚ) (split : String → List String)
    (h50 : (50 : ℚ) ≤ h) :
    (∀ (lines : List String) (s₀ : PagState),
      ((paginateLines h split lines s₀).2.all (evOk h)) = true)
    ∧ (∀ (s : PagState) (line : String), jsTrim line = "" →
        stepPagLine h split s line = ({ page := s.page, y := s.y + 7 / 2 }, []))
    ∧ (∀ (s : PagState) (line : String), isHeadingLine (jsTrim line) = true →
        stepPagLine h split s line =
          (if s.y > h - 30 then
            ({ page := s.page + 1, y := (20 : ℚ) + 7 + 3 },
             [RenderEv.heading (s.page + 1) 20 (jsTrim (stripBoldAll (jsTrim line)))])
          else
            ({ page := s.page, y := s.y + 7 + 3 },
             [RenderEv.heading s.page s.y (jsTrim (stripBoldAll (jsTrim line)))])))
    ∧ (∀ (s : PagState) (l : String) (ls : List String),
        bodyLines h s (l :: ls) =
          ((bodyLines h
              { page := (if s.y > h - 20 then { page := s.page + 1, y := (20 : ℚ) } else s).page,
                y := (if s.y > h - 20 then { page := s.page + 1, y := (20 : ℚ) } else s).y + 7 } ls).1,
            RenderEv.body (if s.y > h - 20 then { page := s.page + 1, y := (20 : ℚ) } else s).page
                (if s.y > h - 20 then { page := s.page + 1, y := (20 : ℚ) } else s).y l ::
              (bodyLines h
                { page := (if s.y > h - 20 then { page := s.page + 1, y := (20 : ℚ) } else s).page,
                  y := (if s.y > h - 20 then { page := s.page + 1, y := (20 : ℚ) } else s).y + 7 } ls).2)) := by
  refine ⟨paginateLines_ok h split h50, ?_, ?_, ?_⟩
  · intro s line hb
    have he : isHeadingLine ("") = false := rfl
    simp [stepPagLine, hb, he]
  · intro s line hh
    by_cases hy : s.y > h - 30
    · simp [stepPagLine, hh, hy]
    · simp [stepPagLine, hh, hy]
  · intro s l ls
    rfl

/-- Witness for C6 at a concrete geometry and input. -/
theorem paginator_render_bounds_witness :
    (50 : ℚ) ≤ 50
    ∧ ((paginateLines 50 splitSelf [("hi")] { page := 1, y := 20 }).2.all (evOk 50)) = true :=
  ⟨le_refl 50, (paginator_render_bounds 50 splitSelf (le_refl 50)).1 [("hi")] { page := 1, y := 20 }⟩

/-- C2 (amended): the draft-download handler performs no network request
and inspects no response: when no draft text is stored it does nothing at
all, and otherwise it saves exactly one locally paginated PDF named
`legal-<docType>-<timestamp>.pdf`. -/
theorem draft_download_local_only (h : ℚ) (split : String → List String) (now : Nat)
    (draftText docType : String) :
    ((handleDraftDownload h split now draftText docType).filter isFetchAction = [])
    ∧ ((handleDraftDownload h split now draftText docType).filter isMessageAction = [])
    ∧ (draftText = "" → handleDraftDownload h split now draftText docType = [])
    ∧ (draftText ≠ "" → handleDraftDownload h split now draftText docType =
        [DlAction.saveFile (("legal-") ++ docType ++ ("-") ++ toString now ++ (".pdf"))
          (paginateLines h split (jsSplitNl draftText) { page := 1, y := 20 }).2]) := by
  by_cases he : draftText = ""
  · simp [handleDraftDownload, he]
  · simp [handleDraftDownload, he, isFetchAction, isMessageAction]

/-- Witness for C2 at a concrete state with a stored draft. -/
theorem draft_download_local_only_witness :
    ("Body line" : String) ≠ ""
    ∧ handleDraftDownload 297 splitSelf 0 ("Body line") ("memo") =
        [DlAction.saveFile (("legal-") ++ ("memo") ++ ("-") ++ toString 0 ++ (".pdf"))
          (paginateLines 297 splitSelf (jsSplitNl ("Body line")) { page := 1, y := 20 }).2] :=
  ⟨by decide,
   (draft_download_local_only 297 splitSelf 0 ("Body line") ("memo")).2.2.2 (by decide)⟩

/-- C2 (counterexample to the claim as stated): the handler never issues a
draft-download request or examines a response content type — its output
contains no request action — and when the stored draft text is empty it
shows no message at all (no explicit empty-file message) and saves no
file. -/
theorem draft_download_no_response_inspection :
    handleDraftDownload 297 splitSelf 0 ("") ("memo") = []
    ∧ ((handleDraftDownload 297 splitSelf 0 ("Body line") ("memo")).filter isFetchAction = [])
    ∧ ((handleDraftDownload 297 splitSelf 0 ("Body line") ("memo")).filter isMessageAction = [])
    ∧ handleDraftDownload 297 splitSelf 0 ("Body line") ("memo") =
        [DlAction.saveFile (("legal-") ++ ("memo") ++ ("-") ++ toString 0 ++ (".pdf"))
          (paginateLines 297 splitSelf (jsSplitNl ("Body line")) { page := 1, y := 20 }).2] := by
  have h1 : (("") : String) = "" := rfl
  have h2 : ("Body line" : String) ≠ "" := by decide
  refine ⟨?_, ?_, ?_, ?_⟩
  · simp [handleDraftDownload]
  · simp [handleDraftDownload, h2, isFetchAction]
  · simp [handleDraftDownload, h2, isMessageAction]
  · simp [handleDraftDownload, h2]

/-- C7: submitting a message is a local no-op when the text trims to
empty, and otherwise issues exactly one chat request carrying the trimmed
message, the current attempt counter and the current session id,
independently of the clarification mode flag. -/
theorem submit_message_request (input : String) (st : ClientState) :
    (jsTrim input = "" → chatRequestOf input st = none)
    ∧ (jsTrim input ≠ "" → chatRequestOf input st =
        some { message := jsTrim input, clarify_attempts := st.clarifyAttempts,
               context_id := st.contextId })
    ∧ (∀ b : Bool, chatRequestOf input { st with clarifyMode := b } = chatRequestOf input st) := by
  refine ⟨?_, ?_, ?_⟩
  · intro hempty
    simp [chatRequestOf, hempty]
  · intro hne
    simp [chatRequestOf, hne]
  · intro b
    rfl

/-- Witness for C7 on a concrete non-empty input. -/
theorem submit_message_request_witness :
    jsTrim ("  hi  ") ≠ ""
    ∧ chatRequestOf ("  hi  ") initialClient =
        some { message := jsTrim ("  hi  "),
               clarify_attempts := initialClient.clarifyAttempts,
               context_id := initialClient.contextId } :=
  ⟨by decide, (submit_message_request ("  hi  ") initialClient).2.1 (by decide)⟩

/-- C9: a chat response with status `error` surfaces exactly the server
message and leaves the whole client state — attempts, session id, mode,
pending answers and both panels — unchanged. -/
theorem error_response_preserves_state (st : ClientState) (d : ChatResponse)
    (h : d.status = "error") :
    applyChat st d = (st, [d.message]) := by
  have h1 : d.status ≠ "clarifying" := by rw [h]; decide
  have h2 : d.status ≠ "results" := by rw [h]; decide
  simp [applyChat, h1, h2, h]

/-- Witness for C9 on a concrete state and error response. -/
theorem error_response_preserves_state_witness :
    errorResp.status = "error"
    ∧ applyChat staleState errorResp = (staleState, [errorResp.message]) :=
  ⟨rfl, error_response_preserves_state staleState errorResp rfl⟩

/-- C8 (amended): on every clarifying response the attempt counter is set
to the server-provided value (never incremented locally), the pending
answers are cleared, and the mode becomes Clarifying; provided the
server-provided counter is positive, the invariant `mode = Clarifying ⇔
attempts > 0` holds and is preserved by the upload and analyze handlers
that may run before the next chat response. -/
theorem clarifying_response_state (st : ClientState) (d : ChatResponse)
    (h : d.status = "clarifying") :
    (applyChat st d).1.clarifyMode = true
    ∧ (applyChat st d).1.clarifyAttempts = d.clarify_attempts
    ∧ (applyChat st d).1.clarificationAnswers = []
    ∧ (0 < d.clarify_attempts →
        ((applyChat st d).1.clarifyMode = true ↔ 0 < (applyChat st d).1.clarifyAttempts))
    ∧ (∀ u : UploadResponse,
        (applyUpload (applyChat st d).1 u).clarifyMode = (applyChat st d).1.clarifyMode
        ∧ (applyUpload (applyChat st d).1 u).clarifyAttempts = (applyChat st d).1.clarifyAttempts
        ∧ (applyUpload (applyChat st d).1 u).clarificationAnswers
            = (applyChat st d).1.clarificationAnswers)
    ∧ (∀ ar : AnalyzeResponse,
        (applyAnalyze (applyChat st d).1 ar).clarifyMode = (applyChat st d).1.clarifyMode
        ∧ (applyAnalyze (applyChat st d).1 ar).clarifyAttempts = (applyChat st d).1.clarifyAttempts
        ∧ (applyAnalyze (applyChat st d).1 ar).clarificationAnswers
            = (applyChat st d).1.clarificationAnswers) := by
  have hm : (applyChat st d).1.clarifyMode = true := by
    simp [applyChat, h, refreshAnalysis_clarifyMode]
  have ha : (applyChat st d).1.clarifyAttempts = d.clarify_attempts := by
    simp [applyChat, h, refreshAnalysis_clarifyAttempts]
  have hans : (applyChat st d).1.clarificationAnswers = [] := by
    simp [applyChat, h, refreshAnalysis_answers]
  refine ⟨hm, ha, hans, ?_, ?_, ?_⟩
  · intro hpos
    rw [hm, ha]
    simp [hpos]
  · intro u
    exact applyUpload_protocol_fields (applyChat st d).1 u
  · intro ar
    exact applyAnalyze_protocol_fields (applyChat st d).1 ar

/-- Witness for C8 on a concrete clarifying response with a positive
server counter. -/
theorem clarifying_response_state_witness :
    twoClarifyResp.status = "clarifying"
    ∧ 0 < twoClarifyResp.clarify_attempts
    ∧ ((applyChat initialClient twoClarifyResp).1.clarifyMode = true
        ↔ 0 < (applyChat initialClient twoClarifyResp).1.clarifyAttempts) :=
  ⟨rfl, by decide,
   (clarifying_response_state initialClient twoClarifyResp rfl).2.2.2.1 (by decide)⟩

/-- C8 (counterexample to the claim as stated): a clarifying response
whose server-provided `clarify_attempts` is `0` puts the client in
Clarifying mode with a zero attempt counter, refuting the unconditional
`mode = Clarifying ⇔ attempts > 0` invariant. -/
theorem clarifying_zero_attempts_breaks_iff :
    (applyChat initialClient zeroClarifyResp).1.clarifyMode = true
    ∧ (applyChat initialClient zeroClarifyResp).1.clarifyAttempts = 0
    ∧ ¬((applyChat initialClient zeroClarifyResp).1.clarifyMode = true
        ↔ 0 < (applyChat initialClient zeroClarifyResp).1.clarifyAttempts) := by
  refine ⟨by decide, by decide, ?_⟩
  intro hiff
  have := hiff.mp (by decide)
  have h0 : (applyChat initialClient zeroClarifyResp).1.clarifyAttempts = 0 := by decide
  omega

/-- C1 (amended): a results response resets the attempt counter to zero
and the mode to Idle, adopts the returned session id, and replaces the
case collection and panel exactly when the returned list is non-empty;
when it is empty the user is explicitly told no relevant cases were found,
but the previously displayed case collection and panel are left in place. -/
theorem results_response_state (st : ClientState) (d : ChatResponse)
    (h : d.status = "results") :
    (applyChat st d).1.clarifyAttempts = 0
    ∧ (applyChat st d).1.clarifyMode = false
    ∧ (applyChat st d).1.contextId = d.context_id
    ∧ ((d.cases.getD []).isEmpty = false →
        (applyChat st d).1.currentCases = d.cases.getD []
        ∧ (applyChat st d).1.casesHtml = updateCasesPanelHtml (d.cases.getD [])
        ∧ (applyChat st d).2 =
            [("Found ") ++ toString (d.cases.getD []).length ++ (" relevant cases. Check the Cases panel."),
             ("You can add more information to refine the search or generate a document.")])
    ∧ ((d.cases.getD []).isEmpty = true →
        (applyChat st d).1.currentCases = st.currentCases
        ∧ (applyChat st d).1.casesHtml = st.casesHtml
        ∧ (applyChat st d).2 =
            [("No relevant cases found."),
             ("You can add more information to refine the search or generate a document.")]) := by
  have h1 : d.status ≠ "clarifying" := by rw [h]; decide
  by_cases hc : (d.cases.getD []).isEmpty
  · refine ⟨?_, ?_, ?_, ?_, ?_⟩
    · simp [applyChat, h1, h, hc, refreshAnalysis_clarifyAttempts]
    · simp [applyChat, h1, h, hc, refreshAnalysis_clarifyMode]
    · simp [applyChat, h1, h, hc, refreshAnalysis_contextId]
    · intro hfalse
      rw [hc] at hfalse
      cases hfalse
    · intro _
      refine ⟨?_, ?_, ?_⟩
      · simp [applyChat, h1, h, hc, refreshAnalysis_currentCases]
      · simp [applyChat, h1, h, hc, refreshAnalysis_casesHtml]
      · simp [applyChat, h1, h, hc]
  · refine ⟨?_, ?_, ?_, ?_, ?_⟩
    · simp [applyChat, h1, h, hc, refreshAnalysis_clarifyAttempts]
    · simp [applyChat, h1, h, hc, refreshAnalysis_clarifyMode]
    · simp [applyChat, h1, h, hc, refreshAnalysis_contextId]
    · intro _
      refine ⟨?_, ?_, ?_⟩
      · simp [applyChat, h1, h, hc]
      · simp [applyChat, h1, h, hc]
      · simp [applyChat, h1, h, hc]
    · intro htrue
      rw [htrue] at hc
      cases hc rfl

/-- Witness for C1 on a concrete results response carrying one case. -/
theorem results_response_state_witness :
    foundResultsResp.status = "results"
    ∧ (foundResultsResp.cases.getD []).isEmpty = false
    ∧ ((applyChat initialClient foundResultsResp).1.currentCases = foundResultsResp.cases.getD []
        ∧ (applyChat initialClient foundResultsResp).1.casesHtml
            = updateCasesPanelHtml (foundResultsResp.cases.getD [])
        ∧ (applyChat initialClient foundResultsResp).2 =
            [("Found ") ++ toString (foundResultsResp.cases.getD []).length ++
                (" relevant cases. Check the Cases panel."),
             ("You can add more information to refine the search or generate a document.")]) :=
  ⟨rfl, by decide,
   (results_response_state initialClient foundResultsResp rfl).2.2.2.1 (by decide)⟩

set_option maxRecDepth 4000 in
/-- C1 (counterexample to the claim as stated): a results response with an
empty cases list tells the user no relevant cases were found, yet the
previously displayed case collection and panel remain — stale case data
stays displayed. -/
theorem results_empty_leaves_stale_cases :
    (applyChat staleState emptyResultsResp).1.currentCases = [sampleCase]
    ∧ (applyChat staleState emptyResultsResp).1.casesHtml = updateCasesPanelHtml [sampleCase]
    ∧ (applyChat staleState emptyResultsResp).1.casesHtml ≠
        ("<p class=\"empty-state\">No case law results yet. Start a search to see relevant cases.</p>")
    ∧ (applyChat staleState emptyResultsResp).2 =
        [("No relevant cases found."),
         ("You can add more information to refine the search or generate a document.")] := by
  decide

set_option maxRecDepth 4000 in
/-- C3: evaluation at the failing input. A paragraph body line of a draft
is inserted into the page raw — unescaped, with the emphasis substitutions
applied to the raw text — while headings, list items and analysis facts do
pass through `escapeHtml`. The first conjunct exhibits markup from the
draft text surviving verbatim into the rendered HTML. -/
theorem draft_paragraph_text_unescaped :
    displayDraftHtml ("<img src=x onerror=alert(1)>") =
      ("<div class=\"draft-document\"><p><img src=x onerror=alert(1)></p></div>")
    ∧ strContains (displayDraftHtml ("<img src=x onerror=alert(1)>")) ("&lt;") = false
    ∧ displayDraftHtml ("**T**\n- <b>x</b>") =
        ("<div class=\"draft-document\"><h3>T</h3><ul><li>&lt;b&gt;x&lt;/b&gt;</li></ul></div>")
    ∧ strContains
        (updateAnalysisPanelHtml (some
          { facts := some [("<b>f</b>")], parties := none, jurisdictions := none,
            legal_issues := none, causes_of_action := none, penal_codes := none }))
        ("&lt;b&gt;f&lt;/b&gt;") = true := by
  decide

set_option maxRecDepth 4000 in
/-- C4 (counterexample to the claim as stated): the line containing bold
markers strictly inside still counts as a heading for the code — the source
checks only that the trimmed line starts and ends with a marker pair —
whereas the claimed condition additionally requires no interior markers
and rejects it. -/
theorem heading_interior_markers_still_heading :
    isHeadingLine (jsTrim ("**a** and **b**")) = true
    ∧ claimedHeadingCond (jsTrim ("**a** and **b**")) = false
    ∧ displayDraftHtml ("**a** and **b**") =
        ("<div class=\"draft-document\"><h3>a and b</h3></div>") := by
  decide

/-- C4 (amended): a trimmed line is classified as a heading exactly when it
starts and ends with a bold-marker pair (interior markers are not
examined); a heading line first flushes the open paragraph — emitted as the
buffered lines joined with a single space — and closes the open list, then
is emitted with all bold markers stripped. -/
theorem heading_classification_step (a : DraftAcc) (line : String) :
    (isHeadingLine (jsTrim line) = true →
      stepDraftLine a line =
        { html := (closeList (flushPara a)).html ++
            (("<h3>") ++ escapeHtml (jsTrim (stripBoldAll (jsTrim line))) ++ ("</h3>")),
          para := [], listType := none })
    ∧ (a.para ≠ [] →
        (flushPara a).html = a.html ++ (("<p>") ++ String.intercalate (" ") a.para ++ ("</p>")))
    ∧ (isHeadingLine (jsTrim line) =
        (strStarts (jsTrim line) ("**") && strEnds (jsTrim line) ("**"))) := by
  refine ⟨?_, ?_, rfl⟩
  · intro hh
    show (let trimmed := jsTrim line; _ : DraftAcc) = _
    simp only [stepDraftLine, hh, if_pos]
    rw [DraftAcc.mk.injEq] at *
    refine ⟨rfl, ?_, ?_⟩
    · exact (closeList_para _).trans (flushPara_para a)
    · exact closeList_listType _
  · intro hp
    have hne : a.para.isEmpty = false := by
      cases hpe : a.para.isEmpty
      · rfl
      · exact absurd (List.isEmpty_iff.mp hpe) hp
    simp [flushPara, hne]

/-- Witness for C4 on a concrete heading line and accumulator state. -/
theorem heading_classification_step_witness :
    isHeadingLine (jsTrim ("**T**")) = true
    ∧ stepDraftLine { html := ("x"), para := [("p1")], listType := some ("ul") } ("**T**") =
        { html := (closeList (flushPara { html := ("x"), para := [("p1")], listType := some ("ul") })).html ++
            (("<h3>") ++ escapeHtml (jsTrim (stripBoldAll (jsTrim ("**T**")))) ++ ("</h3>")),
          para := [], listType := none } :=
  ⟨by decide,
   (heading_classification_step { html := ("x"), para := [("p1")], listType := some ("ul") }
      ("**T**")).1 (by decide)⟩

/-- C5 (amended): the case renderer computes no tier classification; it
displays the numeric relevance score directly inside the fixed
`relevance-score` span, using the default `0` when the score is absent or
zero, and the panel for a single case is exactly that case's block. -/
theorem case_relevance_score_display (c : CaseResult) :
    (∃ pre post, caseItemHtml c =
        pre ++ (("Relevance: ") ++ toString (scoreOr c.relevance_score) ++ ("%")) ++ post)
    ∧ updateCasesPanelHtml [c] = caseItemHtml c
    ∧ scoreOr none = 0
    ∧ scoreOr (some 0) = 0 := by
  refine ⟨⟨("<div class=\"case-item\">") ++
      (("<div class=\"case-title\">") ++ escapeHtml (jsOr c.title ("Untitled")) ++ ("</div>")) ++
      (if truthyStr c.citation then
        ("<div class=\"case-citation\">") ++ escapeHtml (c.citation.getD ("")) ++ ("</div>")
       else ("")) ++
      ("<div class=\"case-relevance\"><span class=\"relevance-score\">"),
      ("</span></div>") ++
      (if truthyStr c.relevance_reason then
        ("<div class=\"relevance-reason\">") ++ escapeHtml (c.relevance_reason.getD ("")) ++ ("</div>")
       else ("")) ++
      (if truthyStr c.snippet then
        ("<div class=\"case-snippet\">") ++
          (escapeHtml (strTake (c.snippet.getD ("")) 200) ++ ("...")) ++ ("</div>")
       else ("")) ++
      (if truthyStr c.pdf_link then
        (("<a href=\"") ++ c.pdf_link.getD ("")) ++
          ("\" target=\"_blank\" class=\"case-link\">View Case →</a>")
       else ("")) ++
      ("</div>"), ?_⟩, ?_, rfl, rfl⟩
  · simp only [caseItemHtml, String.append_assoc]
  · simp [updateCasesPanelHtml, String.join, strEmpty_append]

set_option maxRecDepth 8000 in
/-- C5 (counterexample to the claim as stated): the rendered case blocks
for scores on opposite sides of every claimed tier boundary are identical
once digits are deleted — the renderer emits no `high`, `medium` or `low`
classification anywhere, only the numeric score itself. -/
theorem case_render_has_no_tier_classes :
    ((caseItemHtml sampleCase).data.filter (fun ch => !ch.isDigit)
      = (caseItemHtml sampleCaseLow).data.filter (fun ch => !ch.isDigit))
    ∧ strContains (caseItemHtml sampleCase) ("high") = false
    ∧ strContains (caseItemHtml sampleCase) ("medium") = false
    ∧ strContains (caseItemHtml sampleCase) ("low") = false
    ∧ strContains (caseItemHtml sampleCaseLow) ("high") = false
    ∧ strContains (caseItemHtml sampleCaseLow) ("medium") = false
    ∧ strContains (caseItemHtml sampleCaseLow) ("low") = false
    ∧ caseItemHtml sampleCase ≠ caseItemHtml sampleCaseLow := by
  decide

theorem strTake_ne_empty (s : String) (h : s ≠ "") : strTake s 200 ≠ "" := by
  intro hc
  apply h
  rw [String.ext_iff] at hc ⊢
  simpa [strTake, List.take_eq_nil_iff] using hc

theorem strTake_idem (s : String) (n : Nat) : strTake (strTake s n) n = strTake s n := by
  simp [strTake, List.take_take]


set_option maxRecDepth 8000 in
/-- C10: the backend-supplied link is inserted verbatim as the hyperlink
target while the displayed text fields (title, citation, relevance reason,
snippet) pass through `escapeHtml`, which neutralizes all markup
characters (the concrete count shows that with markup in every field only
the fixed tags and the raw link contribute markup characters to the
output); the snippet is truncated to its first 200 characters with an
ellipsis appended. -/
theorem case_render_escaping_and_link (t cit reason snip link : String) (sc : Option Nat)
    (hcit : cit ≠ "") (hreason : reason ≠ "") (hsnip : snip ≠ "") (hlink : link ≠ "") :
    (∃ pre post, caseItemHtml ⟨some t, some cit, sc, some reason, some snip, some link⟩ =
        pre ++ (("<a href=\"") ++ link) ++ post)
    ∧ (∃ pre post, caseItemHtml ⟨some t, some cit, sc, some reason, some snip, some link⟩ =
        pre ++ (escapeHtml (strTake snip 200) ++ ("...")) ++ post)
    ∧ caseItemHtml ⟨some t, some cit, sc, some reason, some snip, some link⟩ =
        caseItemHtml ⟨some t, some cit, sc, some reason, some (strTake snip 200), some link⟩
    ∧ (∀ s : String, countChar '<' (escapeHtml s) = 0 ∧ countChar '>' (escapeHtml s) = 0)
    ∧ countChar '<'
        (caseItemHtml ⟨some ("<a>"), some ("<b>"), some 85, some ("<c>"), some ("<d>"), some ("<e>")⟩)
        = 17 := by
  have hc1 : truthyStr (some cit) = true := by simp [truthyStr, hcit]
  have hc2 : truthyStr (some reason) = true := by simp [truthyStr, hreason]
  have hc3 : truthyStr (some snip) = true := by simp [truthyStr, hsnip]
  have hc4 : truthyStr (some link) = true := by simp [truthyStr, hlink]
  have hc5 : truthyStr (some (strTake snip 200)) = true := by
    simp [truthyStr, strTake_ne_empty snip hsnip]
  refine ⟨?_, ?_, ?_, ?_, ?_⟩
  · refine ⟨("<div class=\"case-item\">") ++
      (("<div class=\"case-title\">") ++ escapeHtml (jsOr (some t) ("Untitled")) ++ ("</div>")) ++
      (("<div class=\"case-citation\">") ++ escapeHtml cit ++ ("</div>")) ++
      (("<div class=\"case-relevance\"><span class=\"relevance-score\">") ++
        (("Relevance: ") ++ toString (scoreOr sc) ++ ("%")) ++ ("</span></div>")) ++
      (("<div class=\"relevance-reason\">") ++ escapeHtml reason ++ ("</div>")) ++
      (("<div class=\"case-snippet\">") ++
        (escapeHtml (strTake snip 200) ++ ("...")) ++ ("</div>")),
      ("\" target=\"_blank\" class=\"case-link\">View Case →</a>") ++ ("</div>"), ?_⟩
    simp only [caseItemHtml, hc1, hc2, hc3, hc4, if_true, Option.getD_some]
    simp only [String.append_assoc]
  · refine ⟨("<div class=\"case-item\">") ++
      (("<div class=\"case-title\">") ++ escapeHtml (jsOr (some t) ("Untitled")) ++ ("</div>")) ++
      (("<div class=\"case-citation\">") ++ escapeHtml cit ++ ("</div>")) ++
      (("<div class=\"case-relevance\"><span class=\"relevance-score\">") ++
        (("Relevance: ") ++ toString (scoreOr sc) ++ ("%")) ++ ("</span></div>")) ++
      (("<div class=\"relevance-reason\">") ++ escapeHtml reason ++ ("</div>")) ++
      ("<div class=\"case-snippet\">"),
      ("</div>") ++
      ((("<a href=\"") ++ link) ++
        ("\" target=\"_blank\" class=\"case-link\">View Case →</a>")) ++ ("</div>"), ?_⟩
    simp only [caseItemHtml, hc1, hc2, hc3, hc4, if_true, Option.getD_some]
    simp only [String.append_assoc]
  · simp only [caseItemHtml, hc1, hc2, hc3, hc4, hc5, if_true, Option.getD_some, strTake_idem]
  · intro s
    exact ⟨countChar_escapeHtml_lt s, countChar_escapeHtml_gt s⟩
  · decide

/-- Witness for C10 on concrete populated fields. -/
theorem case_render_escaping_and_link_witness :
    (("C") : String) ≠ "" ∧ (("R") : String) ≠ "" ∧ (("S") : String) ≠ ""
    ∧ (("http://x") : String) ≠ ""
    ∧ caseItemHtml ⟨some ("T"), some ("C"), some 85, some ("R"), some ("S"), some ("http://x")⟩ =
        caseItemHtml
          ⟨some ("T"), some ("C"), some 85, some ("R"), some (strTake ("S") 200), some ("http://x")⟩ :=
  ⟨by decide, by decide, by decide, by decide,
   (case_render_escaping_and_link ("T") ("C") ("R") ("S") ("http://x") (some 85)
      (by decide) (by decide) (by decide) (by decide)).2.2.1⟩
